import Mathlib

/-!
Verification development for the Apktool MCP server (src/APktool.py).

The file shallowly embeds the server's tool-dispatch boundary, its command
runner and its eight tool handlers as executable Lean definitions, and proves
the specification's claims about them.  Filesystem state and subprocess
results are passed explicitly through an `Env` record; every subprocess
request issued by the embedded code is logged as a `SpawnCall` so that
properties about what was (or was not) spawned can be stated.
-/

deriving instance DecidableEq for Except

namespace Apktool

/-- Single-quote character as a string, used when building Python-style
messages such as `Found 3 matches for 'x'`. -/
def sq : String := String.mk [Char.ofNat 39]

/-- Split a character list at every occurrence of the separator; Python
`str.split(sep)` semantics (empty pieces are kept, `split "" = [""]`). -/
def splitOnChar (c : Char) : List Char → List (List Char)
  | [] => [[]]
  | x :: xs =>
    match splitOnChar c xs with
    | [] => [[]]
    | l :: ls => if x = c then [] :: l :: ls else (x :: l) :: ls

/-- String version of `splitOnChar`; models Python `s.split(c)`. -/
def strSplitOnChar (c : Char) (s : String) : List String :=
  (splitOnChar c s.data).map String.mk

/-- Join a list of strings with a separator; models Python `sep.join(l)`. -/
def joinSep (sep : String) : List String → String
  | [] => ""
  | [x] => x
  | x :: y :: xs => x ++ sep ++ joinSep sep (y :: xs)

/-- Substring test on character lists; `listHasInfix n h = true` iff the list
`n` occurs contiguously inside `h`. -/
def listHasInfix (needle : List Char) : List Char → Bool
  | [] => needle.isEmpty
  | x :: xs => needle.isPrefixOf (x :: xs) || listHasInfix needle xs

/-- Models Python `pat in s` (substring containment). -/
def strContains (s pat : String) : Bool := listHasInfix pat.data s.data

/-- Models Python `s.startswith(p)`. -/
def strStartsWith (p s : String) : Bool := p.data.isPrefixOf s.data

/-- Models Python `s.lower()` (ASCII letters; all inputs used here are ASCII). -/
def lowerStr (s : String) : String := String.mk (s.data.map Char.toLower)

/-- Models Python `s.strip()` (whitespace removed from both ends). -/
def trimStr (s : String) : String :=
  String.mk (((s.data.dropWhile Char.isWhitespace).reverse.dropWhile
    Char.isWhitespace).reverse)

/-- Models `str(pathlib.Path(p))`: repeated separators and inner `.`
components are dropped; metacharacters such as spaces and `;` are untouched. -/
def pathStr (p : String) : String :=
  let comps := (strSplitOnChar (Char.ofNat 47) p).filter
    (fun c => !(c == "") && !(c == "."))
  let body := joinSep "/" comps
  if strStartsWith "/" p then "/" ++ body
  else if comps.isEmpty then "." else body

/-- Index of the last occurrence of a character in a list. -/
def rfindChar (c : Char) : List Char → Option Nat
  | [] => none
  | x :: xs =>
    match rfindChar c xs with
    | some i => some (i + 1)
    | none => if x = c then some 0 else none

/-- Models `pathlib.Path(p).name`: the final path component. -/
def pathName (p : String) : String :=
  match (strSplitOnChar (Char.ofNat 47) (pathStr p)).reverse with
  | [] => ""
  | n :: _ => n

/-- Models `pathlib.Path(p).stem`: the final component without its suffix
(pathlib rule: the suffix starts at the last dot `i` with `0 < i < len-1`). -/
def pathStem (p : String) : String :=
  let n := (pathName p).data
  match rfindChar (Char.ofNat 46) n with
  | some i => if 0 < i ∧ i < n.length - 1 then String.mk (n.take i) else String.mk n
  | none => String.mk n

/-- A request to spawn an external process.  `exec` passes a discrete argument
vector (the semantics of `asyncio.create_subprocess_exec`); `shell` would pass
a single shell-interpreted command string (`create_subprocess_shell`), which
the embedded code never constructs. -/
inductive SpawnCall where
  | exec (argv : List String)
  | shell (cmdline : String)
  deriving DecidableEq, Repr

/-- Outcome of attempting to spawn a process: either the spawn itself fails
(executable missing, etc., with the exception text) or the process runs to
completion with an exit status and decoded stdout/stderr. -/
inductive SpawnResult where
  | spawnFailure (msg : String)
  | completed (returncode : Int) (stdout stderr : String)
  deriving DecidableEq, Repr

/-- The ambient world the server touches: file existence, file contents,
spawn results, directory listings, the recursive `*.smali` glob (paths
relative to the project directory, paired with the result of reading them),
the `values*/strings.xml` glob, and `stat` metadata. -/
structure Env where
  pathExists : String → Bool
  readText : String → Except String String
  spawn : List String → SpawnResult
  iterdir : String → List (String × Bool)
  smaliFiles : String → List (String × Except String String)
  glob : String → String → List (String × Except String String)
  statSize : String → Nat
  statMtime : String → String

/-- Constructor-level settings of `ApktoolMCPServer`. -/
structure Cfg where
  apktoolPath : String
  workDir : String

/-- Message of the inner `RuntimeError` raised on a non-zero exit status:
`Command failed: {joined argv}\nError: {stderr}`. -/
def cmdFailedMsg (joined stderrTxt : String) : String :=
  "Command failed: " ++ joined ++ "\nError: " ++ stderrTxt

/-- Message of the outer `RuntimeError` re-raised by `_run_command`:
`Failed to execute command: {joined argv}\nError: {str(e)}`. -/
def execFailMsg (joined inner : String) : String :=
  "Failed to execute command: " ++ joined ++ "\nError: " ++ inner

/-- Result part of `_run_command`: non-zero exit raises (through the outer
handler) a message embedding the joined argv and captured stderr; a spawn
failure is re-raised with the spawn exception's text; on success stdout is
returned, or stderr when stdout is empty. -/
def runOutcome (env : Env) (cmd : List String) : Except String String :=
  match env.spawn cmd with
  | .spawnFailure msg => .error (execFailMsg (joinSep " " cmd) msg)
  | .completed rc out err =>
    if rc ≠ 0 then
      .error (execFailMsg (joinSep " " cmd) (cmdFailedMsg (joinSep " " cmd) err))
    else .ok (if out.data.isEmpty then err else out)

/-- Embeds `_run_command`: exactly one process is spawned, always through an
argument-vector `exec` call, never a shell string. -/
def runCommand (env : Env) (cmd : List String) :
    Except String String × List SpawnCall :=
  (runOutcome env cmd, [SpawnCall.exec cmd])

/-- Embeds `_decode_apk` (src/APktool.py lines 383-409): requires an existing
APK file, defaults the output directory to the APK's stem under the work
directory, appends optional flags and always an explicit `-o` flag. -/
def decodeApk (cfg : Cfg) (env : Env) (apkPath : String) (outputDir : Option String)
    (force noRes noSrc : Bool) : Except String String × List SpawnCall :=
  if !env.pathExists (pathStr apkPath) then
    (.error ("APK file not found: " ++ apkPath), [])
  else
    let od := match outputDir with
      | some s => if s.data.isEmpty then pathStem apkPath else s
      | none => pathStem apkPath
    let outputPath := cfg.workDir ++ "/" ++ od
    let cmd := [cfg.apktoolPath, "d", pathStr apkPath]
      ++ (if force then ["-f"] else [])
      ++ (if noRes then ["-r"] else [])
      ++ (if noSrc then ["-s"] else [])
      ++ ["-o", outputPath]
    let r := runCommand env cmd
    match r.1 with
    | .ok res =>
      (.ok ("Successfully decompiled APK to: " ++ outputPath ++ "\n\nOutput:\n" ++ res), r.2)
    | .error e => (.error e, r.2)

/-- Embeds `_build_apk` (src/APktool.py lines 411-428). -/
def buildApk (cfg : Cfg) (env : Env) (sourceDir : String) (outputApk : Option String)
    (force : Bool) : Except String String × List SpawnCall :=
  if !env.pathExists (pathStr sourceDir) then
    (.error ("Source directory not found: " ++ sourceDir), [])
  else
    let cmd := [cfg.apktoolPath, "b", pathStr sourceDir]
      ++ (if force then ["-f"] else [])
      ++ (match outputApk with
          | some o => if o.data.isEmpty then [] else ["-o", o]
          | none => [])
    let r := runCommand env cmd
    match r.1 with
    | .ok res =>
      (.ok ("Successfully built APK from: " ++ pathStr sourceDir ++ "\n\nOutput:\n" ++ res), r.2)
    | .error e => (.error e, r.2)

/-- Embeds `_install_framework` (src/APktool.py lines 430-443). -/
def installFramework (cfg : Cfg) (env : Env) (frameworkPath : String)
    (tag : Option String) : Except String String × List SpawnCall :=
  if !env.pathExists (pathStr frameworkPath) then
    (.error ("Framework file not found: " ++ frameworkPath), [])
  else
    let cmd := [cfg.apktoolPath, "if", pathStr frameworkPath]
      ++ (match tag with
          | some t => if t.data.isEmpty then [] else ["-t", t]
          | none => [])
    let r := runCommand env cmd
    match r.1 with
    | .ok res =>
      (.ok ("Successfully installed framework: " ++ frameworkPath ++ "\n\nOutput:\n" ++ res), r.2)
    | .error e => (.error e, r.2)

/-- The `elif` line classifier at the heart of `_analyze_manifest`
(src/APktool.py lines 457-468), applied to an already-stripped line. -/
def classifyLine (line : String) : Option String :=
  if strContains line "package=" then some ("Package: " ++ line)
  else if strContains line "android:name=" && strContains (lowerStr line) "activity" then
    some ("Activity: " ++ line)
  else if strContains line "android:name=" && strContains (lowerStr line) "service" then
    some ("Service: " ++ line)
  else if strContains line "android:name=" && strContains (lowerStr line) "receiver" then
    some ("Receiver: " ++ line)
  else if strContains line "uses-permission" then some ("Permission: " ++ line)
  else none

/-- The categorized findings of `_analyze_manifest`: each manifest line is
stripped and then classified. -/
def manifestFindings (content : String) : List String :=
  (strSplitOnChar (Char.ofNat 10) content).filterMap (fun l => classifyLine (trimStr l))

/-- Embeds `_analyze_manifest` (src/APktool.py lines 445-472). -/
def analyzeManifest (env : Env) (apkDir : String) :
    Except String String × List SpawnCall :=
  let manifestPath := pathStr apkDir ++ "/AndroidManifest.xml"
  if !env.pathExists manifestPath then
    (.error ("AndroidManifest.xml not found in: " ++ apkDir), [])
  else
    match env.readText manifestPath with
    | .error e => (.error e, [])
    | .ok content =>
      let findings := manifestFindings content
      let analysisText := if findings.isEmpty then "No key elements found"
        else joinSep "\n" findings
      (.ok ("AndroidManifest.xml Analysis:\n\n" ++ analysisText ++
        "\n\nFull content:\n" ++ content), [])

/-- Reads every globbed strings file in order; the first read failure
propagates as the raised exception, as in the Python loop. -/
def readAllStrings : List (String × Except String String) →
    Except String (List (String × String))
  | [] => .ok []
  | (p, .ok c) :: rest =>
    match readAllStrings rest with
    | .ok l => .ok ((p, c) :: l)
    | .error e => .error e
  | (_, .error e) :: _ => .error e

/-- Embeds `_extract_strings` (src/APktool.py lines 474-494). -/
def extractStrings (env : Env) (apkDir : String) (locale : String) :
    Except String String × List SpawnCall :=
  let resDir := pathStr apkDir ++ "/res"
  if !env.pathExists resDir then
    (.error ("Resources directory not found: " ++ resDir), [])
  else
    let stringsFiles :=
      if !locale.data.isEmpty then
        env.glob resDir ("values-" ++ locale ++ "/strings.xml")
      else env.glob resDir "values*/strings.xml"
    if stringsFiles.isEmpty then
      (.ok ("No string files found for locale: " ++
        (if !locale.data.isEmpty then locale else "default")), [])
    else
      match readAllStrings stringsFiles with
      | .error e => (.error e, [])
      | .ok files =>
        let allStrings := files.map
          (fun f => "\n--- " ++ pathName f.1 ++ " ---\n" ++ f.2)
        (.ok ("Extracted strings from " ++ toString stringsFiles.length ++
          " files:\n" ++ joinSep "" allStrings), [])

/-- Embeds `_list_permissions` (src/APktool.py lines 496-512): containment is
tested on the raw line, the stripped line is collected. -/
def listPermissions (env : Env) (apkDir : String) :
    Except String String × List SpawnCall :=
  let manifestPath := pathStr apkDir ++ "/AndroidManifest.xml"
  if !env.pathExists manifestPath then
    (.error ("AndroidManifest.xml not found in: " ++ apkDir), [])
  else
    match env.readText manifestPath with
    | .error e => (.error e, [])
    | .ok content =>
      let permissions := (strSplitOnChar (Char.ofNat 10) content).filterMap
        (fun line => if strContains line "uses-permission" then some (trimStr line) else none)
      if permissions.isEmpty then
        (.ok "No permissions found in AndroidManifest.xml", [])
      else
        (.ok ("Found " ++ toString permissions.length ++ " permissions:\n\n" ++
          joinSep "\n" permissions), [])

/-- The subdirectories of the project directory whose name starts with
`smali` (src/APktool.py lines 520-523). -/
def smaliDirsOf (env : Env) (apkDir : String) : List (String × Bool) :=
  (env.iterdir (pathStr apkDir)).filter
    (fun e => e.2 && strStartsWith "smali" e.1)

/-- Matching lines of one smali file: the whole content is tested first, then
each line, in the requested case mode; hits are formatted as
`relativePath:lineNumber: strippedLine` (src/APktool.py lines 532-543). -/
def lineHits (caseSensitive : Bool) (searchPattern rel content : String) : List String :=
  let searchContent := if caseSensitive then content else lowerStr content
  if strContains searchContent searchPattern then
    ((strSplitOnChar (Char.ofNat 10) content).enumFrom 1).filterMap
      (fun p =>
        let lineSearch := if caseSensitive then p.2 else lowerStr p.2
        if strContains lineSearch searchPattern then
          some (rel ++ ":" ++ toString p.1 ++ ": " ++ trimStr p.2)
        else none)
  else []

/-- All matches collected by `_find_smali_references` across every smali
directory and readable smali file; unreadable files are skipped. -/
def smaliMatches (env : Env) (apkDir pattern : String) (caseSensitive : Bool) :
    List String :=
  let searchPattern := if caseSensitive then pattern else lowerStr pattern
  (smaliDirsOf env apkDir).flatMap (fun d =>
    (env.smaliFiles (pathStr apkDir ++ "/" ++ d.1)).flatMap (fun f =>
      match f.2 with
      | .ok content => lineHits caseSensitive searchPattern f.1 content
      | .error _ => []))

/-- Embeds `_find_smali_references` (src/APktool.py lines 514-550). -/
def findSmaliReferences (env : Env) (apkDir pattern : String)
    (caseSensitive : Bool) : Except String String × List SpawnCall :=
  if (smaliDirsOf env apkDir).isEmpty then
    (.ok "No smali directories found", [])
  else
    let ms := smaliMatches env apkDir pattern caseSensitive
    if ms.isEmpty then
      (.ok ("Pattern " ++ sq ++ pattern ++ sq ++ " not found in smali code"), [])
    else
      (.ok ("Found " ++ toString ms.length ++ " matches for " ++ sq ++ pattern ++
        sq ++ ":\n\n" ++ joinSep "\n" (ms.take 50)), [])

/-- Embeds `_get_apk_info` (src/APktool.py lines 552-570): any failure of the
`aapt` invocation falls back to a successful result reporting stat metadata. -/
def getApkInfo (env : Env) (apkPath : String) :
    Except String String × List SpawnCall :=
  if !env.pathExists (pathStr apkPath) then
    (.error ("APK file not found: " ++ apkPath), [])
  else
    let cmd := ["aapt", "dump", "badging", pathStr apkPath]
    let r := runCommand env cmd
    match r.1 with
    | .ok res => (.ok ("APK Information:\n\n" ++ res), r.2)
    | .error _ =>
      (.ok ("APK File Information:\nPath: " ++ pathStr apkPath ++
        "\nSize: " ++ toString (env.statSize (pathStr apkPath)) ++ " bytes" ++
        "\nModified: " ++ env.statMtime (pathStr apkPath) ++
        "\nNote: aapt not available for detailed analysis"), r.2)

/-- A JSON-ish argument value arriving in a tool-call request.  The server's
schemas only declare string and boolean parameters. -/
inductive Value where
  | str (s : String)
  | bool (b : Bool)
  deriving DecidableEq, Repr

/-- The `arguments` dictionary of a tool-call request (keys are unique, as in
a Python dict; insertion order is preserved). -/
def Args := List (String × Value)

/-- Python `str()` of a value. -/
def Value.asStr : Value → String
  | .str s => s
  | .bool b => if b then "True" else "False"

/-- Python truthiness of a value (`if v:`): a string is truthy iff non-empty. -/
def Value.asBool : Value → Bool
  | .str s => !s.data.isEmpty
  | .bool b => b

/-- Key lookup in the arguments dict. -/
def getVal (args : Args) (k : String) : Option Value :=
  (List.find? (fun p => p.1 == k) args).map (fun p => p.2)

/-- Key-presence test in the arguments dict. -/
def hasKey (args : Args) (k : String) : Bool :=
  List.any args (fun p => p.1 == k)

/-- The keys of the arguments dict, in order. -/
def argKeys (args : Args) : List String := List.map (fun p => p.1) args

/-- String argument with the given default when absent. -/
def strArg (args : Args) (k : String) (dflt : String) : String :=
  match getVal args k with
  | some v => v.asStr
  | none => dflt

/-- Optional string argument (Python default `None`). -/
def optStrArg (args : Args) (k : String) : Option String :=
  (getVal args k).map Value.asStr

/-- Boolean argument with the given default, read with Python truthiness. -/
def boolArg (args : Args) (k : String) (dflt : Bool) : Bool :=
  match getVal args k with
  | some v => v.asBool
  | none => dflt

/-- Quote a name the way CPython messages do. -/
def quoteArg (s : String) : String := sq ++ s ++ sq

/-- CPython's rendering of a list of missing-argument names:
one name, two names joined by `and`, or comma-separated with a final
`, and`. -/
def fmtMissingNames (l : List String) : String :=
  match l with
  | [] => ""
  | [a] => quoteArg a
  | [a, b] => quoteArg a ++ " and " ++ quoteArg b
  | _ =>
    match l.reverse with
    | [] => ""
    | last :: restRev =>
      joinSep ", " (restRev.reverse.map quoteArg) ++ ", and " ++ quoteArg last

/-- CPython's `TypeError` message for required keyword arguments missing from
a call `f(**arguments)` (Python >= 3.10 uses the qualified function name). -/
def pyMissingMsg (fname : String) (missing : List String) : String :=
  fname ++ "() missing " ++ toString missing.length ++
    " required positional argument" ++ (if missing.length == 1 then "" else "s") ++
    ": " ++ fmtMissingNames missing

/-- CPython's `TypeError` message for an unexpected keyword argument. -/
def pyUnexpectedMsg (fname : String) (key : String) : String :=
  fname ++ "() got an unexpected keyword argument " ++ quoteArg key

/-- Models CPython keyword-argument binding for `f(**arguments)` against a
method whose parameters are `params` with `required` lacking defaults: an
unexpected keyword is reported first (during keyword processing), then
missing required arguments, in declaration order; `none` means the call
binds and the handler body runs. -/
def bindCheck (fname : String) (params required : List String) (args : Args) :
    Option String :=
  match (argKeys args).filter (fun k => !params.contains k) with
  | e :: _ => some (pyUnexpectedMsg fname e)
  | [] =>
    match required.filter (fun k => !hasKey args k) with
    | [] => none
    | missing => some (pyMissingMsg fname missing)

/-- Declared shape of one registered tool: its registry name, its Python
handler's qualified name, its parameter names in signature order, and the
required subset (which coincides with the schema's `required` list). -/
structure ToolSig where
  toolName : String
  pyName : String
  params : List String
  required : List String
  deriving DecidableEq, Repr

/-- The eight registered tools (src/APktool.py lines 64-161 and 168-185). -/
def toolSigs : List ToolSig :=
  [⟨"decode_apk", "ApktoolMCPServer._decode_apk",
    ["apk_path", "output_dir", "force", "no_res", "no_src"], ["apk_path"]⟩,
   ⟨"build_apk", "ApktoolMCPServer._build_apk",
    ["source_dir", "output_apk", "force"], ["source_dir"]⟩,
   ⟨"install_framework", "ApktoolMCPServer._install_framework",
    ["framework_path", "tag"], ["framework_path"]⟩,
   ⟨"analyze_manifest", "ApktoolMCPServer._analyze_manifest",
    ["apk_dir"], ["apk_dir"]⟩,
   ⟨"extract_strings", "ApktoolMCPServer._extract_strings",
    ["apk_dir", "locale"], ["apk_dir"]⟩,
   ⟨"list_permissions", "ApktoolMCPServer._list_permissions",
    ["apk_dir"], ["apk_dir"]⟩,
   ⟨"find_smali_references", "ApktoolMCPServer._find_smali_references",
    ["apk_dir", "pattern", "case_sensitive"], ["apk_dir", "pattern"]⟩,
   ⟨"get_apk_info", "ApktoolMCPServer._get_apk_info",
    ["apk_path"], ["apk_path"]⟩]

/-- The registered tool names, in registry order. -/
def registeredTools : List String := toolSigs.map (fun s => s.toolName)

/-- The `try` body of `call_tool` (src/APktool.py lines 167-185): the `elif`
chain over tool names, each branch binding `**arguments` against the matching
handler (a binding failure raises before the handler body runs, so no process
is spawned) and running the embedded handler; unknown names raise
`ValueError`. -/
def invokeTool (cfg : Cfg) (env : Env) (name : String) (args : Args) :
    Except String String × List SpawnCall :=
  if name == "decode_apk" then
    match bindCheck "ApktoolMCPServer._decode_apk"
        ["apk_path", "output_dir", "force", "no_res", "no_src"] ["apk_path"] args with
    | some e => (.error e, [])
    | none =>
      decodeApk cfg env (strArg args "apk_path" "") (optStrArg args "output_dir")
        (boolArg args "force" false) (boolArg args "no_res" false)
        (boolArg args "no_src" false)
  else if name == "build_apk" then
    match bindCheck "ApktoolMCPServer._build_apk"
        ["source_dir", "output_apk", "force"] ["source_dir"] args with
    | some e => (.error e, [])
    | none =>
      buildApk cfg env (strArg args "source_dir" "") (optStrArg args "output_apk")
        (boolArg args "force" false)
  else if name == "install_framework" then
    match bindCheck "ApktoolMCPServer._install_framework"
        ["framework_path", "tag"] ["framework_path"] args with
    | some e => (.error e, [])
    | none =>
      installFramework cfg env (strArg args "framework_path" "") (optStrArg args "tag")
  else if name == "analyze_manifest" then
    match bindCheck "ApktoolMCPServer._analyze_manifest" ["apk_dir"] ["apk_dir"] args with
    | some e => (.error e, [])
    | none => analyzeManifest env (strArg args "apk_dir" "")
  else if name == "extract_strings" then
    match bindCheck "ApktoolMCPServer._extract_strings"
        ["apk_dir", "locale"] ["apk_dir"] args with
    | some e => (.error e, [])
    | none => extractStrings env (strArg args "apk_dir" "") (strArg args "locale" "")
  else if name == "list_permissions" then
    match bindCheck "ApktoolMCPServer._list_permissions" ["apk_dir"] ["apk_dir"] args with
    | some e => (.error e, [])
    | none => listPermissions env (strArg args "apk_dir" "")
  else if name == "find_smali_references" then
    match bindCheck "ApktoolMCPServer._find_smali_references"
        ["apk_dir", "pattern", "case_sensitive"] ["apk_dir", "pattern"] args with
    | some e => (.error e, [])
    | none =>
      findSmaliReferences env (strArg args "apk_dir" "") (strArg args "pattern" "")
        (boolArg args "case_sensitive" true)
  else if name == "get_apk_info" then
    match bindCheck "ApktoolMCPServer._get_apk_info" ["apk_path"] ["apk_path"] args with
    | some e => (.error e, [])
    | none => getApkInfo env (strArg args "apk_path" "")
  else (.error ("Unknown tool: " ++ name), [])

/-- What a tool call returns to the protocol: a `CallToolResult` that is
either a success text or (with `isError=True`) an error text. -/
inductive ToolOutcome where
  | success (text : String)
  | failure (text : String)
  deriving DecidableEq, Repr

/-- Embeds `call_tool` (src/APktool.py lines 165-192): the whole `try` body,
any exception included, is converted at this boundary into a structured
outcome `Error executing {name}: {message}` with the error flag set. -/
def callTool (cfg : Cfg) (env : Env) (name : String) (args : Args) :
    ToolOutcome × List SpawnCall :=
  let r := invokeTool cfg env name args
  match r.1 with
  | .ok t => (.success t, r.2)
  | .error e => (.failure ("Error executing " ++ name ++ ": " ++ e), r.2)

/-- The exceptions that `read_resource`'s body can raise, with Python's
`str()` of each. -/
inductive PyErr where
  | fileNotFound (msg : String)
  | indexError
  | other (msg : String)
  deriving DecidableEq, Repr

/-- Python `str(e)` of the exceptions above. -/
def pyErrStr : PyErr → String
  | .fileNotFound m => m
  | .indexError => "list index out of range"
  | .other m => m

/-- The `try` body of `read_resource` (src/APktool.py lines 223-243): parses
`uri.split("/")`, indexes parts 3 and 4 (an absent index raises
`IndexError`), maps the kind to a file under the work directory, returns its
content when it exists, and otherwise raises
`FileNotFoundError("Resource not found: {uri}")`. -/
def readResourceInner (cfg : Cfg) (env : Env) (uri : String) : Except PyErr String :=
  if strStartsWith "apktool://apk/" uri then
    let parts := strSplitOnChar (Char.ofNat 47) uri
    match parts.get? 3 with
    | none => .error .indexError
    | some apkName =>
      match parts.get? 4 with
      | none => .error .indexError
      | some resourceType =>
        let apkDir := cfg.workDir ++ "/" ++ apkName
        if resourceType == "manifest" then
          let manifestPath := apkDir ++ "/AndroidManifest.xml"
          if env.pathExists manifestPath then
            match env.readText manifestPath with
            | .ok content => .ok content
            | .error e => .error (.other e)
          else .error (.fileNotFound ("Resource not found: " ++ uri))
        else if resourceType == "apktool_yml" then
          let ymlPath := apkDir ++ "/apktool.yml"
          if env.pathExists ymlPath then
            match env.readText ymlPath with
            | .ok content => .ok content
            | .error e => .error (.other e)
          else .error (.fileNotFound ("Resource not found: " ++ uri))
        else .error (.fileNotFound ("Resource not found: " ++ uri))
  else .error (.fileNotFound ("Resource not found: " ++ uri))

/-- Embeds `read_resource` (src/APktool.py lines 221-247): the boundary
`except` turns any raised exception into a returned text payload
`Error reading resource {uri}: {str(e)}`. -/
def readResource (cfg : Cfg) (env : Env) (uri : String) : String :=
  match readResourceInner cfg env uri with
  | .ok content => content
  | .error e => "Error reading resource " ++ uri ++ ": " ++ pyErrStr e

/-! ## Concrete configurations and environments used by witnesses -/

/-- Configuration used by all witnesses. -/
def cfgW : Cfg where
  apktoolPath := "apktool"
  workDir := "/ws"

/-- Inert environment: no files, no directories, spawning fails. -/
def envBase : Env where
  pathExists := fun _ => false
  readText := fun _ => Except.error "no such file"
  spawn := fun _ => SpawnResult.spawnFailure "spawn disabled"
  iterdir := fun _ => []
  smaliFiles := fun _ => []
  glob := fun _ _ => []
  statSize := fun _ => 0
  statMtime := fun _ => "0.0"

/-- Environment whose spawned process exits with status 1, stdout `out` and
empty stderr. -/
def envExit1 : Env :=
  { envBase with spawn := fun _ => SpawnResult.completed 1 "out" "" }

/-- Environment where spawning itself fails. -/
def envSpawnFail : Env :=
  { envBase with spawn := fun _ => SpawnResult.spawnFailure "boom" }

/-! ## Basic lemmas about the string model -/

theorem mk_data (s : String) : String.mk s.data = s := by
  cases s; rfl

theorem data_app (a b : String) : (a ++ b).data = a.data ++ b.data := by
  cases a; cases b; rfl

theorem strExt {a b : String} (h : a.data = b.data) : a = b := by
  cases a; cases b; exact congrArg String.mk h

theorem strAppend_assoc (a b c : String) : a ++ b ++ c = a ++ (b ++ c) := by
  apply strExt
  rw [data_app, data_app, data_app, data_app, List.append_assoc]

theorem strAppend_cancel_left {a b c : String} (h : a ++ b = a ++ c) : b = c := by
  apply strExt
  have h2 := congrArg String.data h
  rw [data_app, data_app] at h2
  exact List.append_cancel_left h2

theorem isPrefixOf_self_append (p t : List Char) : p.isPrefixOf (p ++ t) = true := by
  induction p with
  | nil => cases t <;> rfl
  | cons x xs ih => simp [List.isPrefixOf, ih]

theorem startsWith_self_append (p t : String) : strStartsWith p (p ++ t) = true := by
  unfold strStartsWith
  rw [data_app]
  exact isPrefixOf_self_append _ _

theorem splitOnChar_not_mem (c : Char) (l : List Char) (h : c ∉ l) :
    splitOnChar c l = [l] := by
  induction l with
  | nil => rfl
  | cons x xs ih =>
    have hx1 : ¬ x = c := fun e => h (by rw [e]; exact List.mem_cons_self c xs)
    have hx2 : c ∉ xs := fun m => h (List.mem_cons_of_mem x m)
    rw [splitOnChar, ih hx2]
    simp [hx1]

/-! ## C4: failure classification of the command runner -/

/-- C4 counterexample: with exit status 1, stdout `out` and empty stderr, the
error raised by the command runner carries the (empty) stderr and does not
contain the captured stdout anywhere, contradicting the claimed fallback to
stdout when stderr is empty. -/
theorem command_failed_no_stdout_cex :
    envExit1.spawn ["x"] = SpawnResult.completed 1 "out" "" ∧
    (runCommand envExit1 ["x"]).1 =
      .error "Failed to execute command: x\nError: Command failed: x\nError: " ∧
    strContains "Failed to execute command: x\nError: Command failed: x\nError: "
      "out" = false := by
  refine ⟨rfl, by decide, by decide⟩

/-- C4 (amended): a non-zero exit fails with a message embedding the
space-joined argument vector and the captured stderr (with no stdout
fallback); a spawn failure fails with a message embedding the joined argument
vector and the spawn exception's text.  Both are raised through the same
generic wrapper, and the two message forms differ whenever the spawn
exception's text does not itself start with the inner `Command failed: `
marker. -/
theorem run_command_failure_forms :
    (∀ env cmd rc out err, env.spawn cmd = SpawnResult.completed rc out err →
      rc ≠ 0 →
      runCommand env cmd =
        (.error (execFailMsg (joinSep " " cmd) (cmdFailedMsg (joinSep " " cmd) err)),
         [SpawnCall.exec cmd])) ∧
    (∀ env cmd m, env.spawn cmd = SpawnResult.spawnFailure m →
      runCommand env cmd =
        (.error (execFailMsg (joinSep " " cmd) m), [SpawnCall.exec cmd])) ∧
    (∀ j err m, strStartsWith "Command failed: " m = false →
      execFailMsg j m ≠ execFailMsg j (cmdFailedMsg j err)) := by
  refine ⟨?_, ?_, ?_⟩
  · intro env cmd rc out err h hrc
    unfold runCommand runOutcome
    rw [h]
    simp [hrc]
  · intro env cmd m h
    unfold runCommand runOutcome
    rw [h]
  · intro j err m hm heq
    unfold execFailMsg at heq
    have hme : m = cmdFailedMsg j err := strAppend_cancel_left heq
    rw [hme] at hm
    unfold cmdFailedMsg at hm
    rw [strAppend_assoc, strAppend_assoc, startsWith_self_append] at hm
    exact Bool.true_eq_false.mp hm

/-- Witness for C4's amended theorem: both failure branches instantiated on
concrete environments. -/
theorem run_command_failure_forms_witness :
    (envExit1.spawn ["x"] = SpawnResult.completed 1 "out" "" ∧ (1 : Int) ≠ 0 ∧
      runCommand envExit1 ["x"] =
        (.error (execFailMsg (joinSep " " ["x"]) (cmdFailedMsg (joinSep " " ["x"]) "")),
         [SpawnCall.exec ["x"]])) ∧
    (envSpawnFail.spawn ["y"] = SpawnResult.spawnFailure "boom" ∧
      runCommand envSpawnFail ["y"] =
        (.error (execFailMsg (joinSep " " ["y"]) "boom"), [SpawnCall.exec ["y"]])) :=
  ⟨⟨rfl, by decide,
    run_command_failure_forms.1 envExit1 ["x"] 1 "out" "" rfl (by decide)⟩,
   ⟨rfl, run_command_failure_forms.2.1 envSpawnFail ["y"] "boom" rfl⟩⟩

/-! ## C5: decode handler contract -/

/-- Environment in which only `app.apk` exists and the spawned decode
succeeds. -/
def envApk : Env :=
  { envBase with
    pathExists := fun p => p == "app.apk"
    spawn := fun _ => SpawnResult.completed 0 "decode output" "" }

/-- C5: decoding a non-existent APK fails with the file-not-found error and
spawns nothing; for an existing APK with no explicit output directory the
command spawned is exactly the apktool invocation whose `-o` argument is
`<workDir>/<stem of the APK>`; and for every choice of arguments the spawned
command ends with an explicit `-o <output path>` pair. -/
theorem decode_contract :
    (∀ cfg env apkPath outputDir force noRes noSrc,
      env.pathExists (pathStr apkPath) = false →
      decodeApk cfg env apkPath outputDir force noRes noSrc =
        (.error ("APK file not found: " ++ apkPath), [])) ∧
    (∀ cfg env apkPath force noRes noSrc,
      env.pathExists (pathStr apkPath) = true →
      ∃ res, decodeApk cfg env apkPath none force noRes noSrc =
        (res, [SpawnCall.exec ([cfg.apktoolPath, "d", pathStr apkPath]
          ++ (if force then ["-f"] else [])
          ++ (if noRes then ["-r"] else [])
          ++ (if noSrc then ["-s"] else [])
          ++ ["-o", cfg.workDir ++ "/" ++ pathStem apkPath])])) ∧
    (∀ cfg env apkPath outputDir force noRes noSrc,
      env.pathExists (pathStr apkPath) = true →
      ∃ front out, (decodeApk cfg env apkPath outputDir force noRes noSrc).2 =
        [SpawnCall.exec (front ++ ["-o", out])]) := by
  refine ⟨?_, ?_, ?_⟩
  · intro cfg env apkPath outputDir force noRes noSrc h
    unfold decodeApk
    rw [h]
    rfl
  · intro cfg env apkPath force noRes noSrc h
    unfold decodeApk
    rw [h]
    simp only [Bool.not_true, Bool.false_eq_true, if_false, runCommand]
    cases runOutcome env ([cfg.apktoolPath, "d", pathStr apkPath]
      ++ (if force then ["-f"] else [])
      ++ (if noRes then ["-r"] else [])
      ++ (if noSrc then ["-s"] else [])
      ++ ["-o", cfg.workDir ++ "/" ++ pathStem apkPath]) <;>
      exact ⟨_, rfl⟩
  · intro cfg env apkPath outputDir force noRes noSrc h
    unfold decodeApk
    rw [h]
    simp only [Bool.not_true, Bool.false_eq_true, if_false, runCommand]
    refine ⟨[cfg.apktoolPath, "d", pathStr apkPath]
      ++ (if force then ["-f"] else [])
      ++ (if noRes then ["-r"] else [])
      ++ (if noSrc then ["-s"] else []),
      cfg.workDir ++ "/" ++ (match outputDir with
        | some s => if s.data.isEmpty then pathStem apkPath else s
        | none => pathStem apkPath), ?_⟩
    split <;> simp [List.append_assoc]

/-- Witness for C5: the missing-file branch on the inert environment and the
default-output branch on `envApk`. -/
theorem decode_contract_witness :
    (envBase.pathExists (pathStr "gone.apk") = false ∧
      decodeApk cfgW envBase "gone.apk" none false false false =
        (.error ("APK file not found: " ++ "gone.apk"), [])) ∧
    (envApk.pathExists (pathStr "app.apk") = true ∧
      ∃ res, decodeApk cfgW envApk "app.apk" none false false false =
        (res, [SpawnCall.exec ([cfgW.apktoolPath, "d", pathStr "app.apk"]
          ++ [] ++ [] ++ [] ++ ["-o", cfgW.workDir ++ "/" ++ pathStem "app.apk"])])) :=
  ⟨⟨by decide, decode_contract.1 cfgW envBase "gone.apk" none false false false (by decide)⟩,
   ⟨by decide, decode_contract.2.1 cfgW envApk "app.apk" false false false (by decide)⟩⟩

/-! ## C9: get_apk_info fallback -/

/-- Environment where `app.apk` exists and `aapt` runs successfully. -/
def envAaptOk : Env :=
  { envBase with
    pathExists := fun p => p == "app.apk"
    spawn := fun _ => SpawnResult.completed 0 "package: name=com.example" "" }

/-- Environment where `app.apk` exists but spawning `aapt` fails, with stat
metadata available. -/
def envAaptFail : Env :=
  { envBase with
    pathExists := fun p => p == "app.apk"
    spawn := fun _ => SpawnResult.spawnFailure "aapt missing"
    statSize := fun _ => 12345
    statMtime := fun _ => "1700000000.0" }

/-- C9: a non-existent APK fails with the file-not-found error and spawns
nothing; an existing APK returns the badging tool's output on success; and on
any failure of the `aapt` invocation the handler still succeeds, reporting
the file's size and modification time with the explicit note that detailed
analysis was unavailable. -/
theorem apk_info_fallback :
    (∀ env apkPath, env.pathExists (pathStr apkPath) = false →
      getApkInfo env apkPath = (.error ("APK file not found: " ++ apkPath), [])) ∧
    (∀ env apkPath out, env.pathExists (pathStr apkPath) = true →
      (runCommand env ["aapt", "dump", "badging", pathStr apkPath]).1 = .ok out →
      getApkInfo env apkPath = (.ok ("APK Information:\n\n" ++ out),
        [SpawnCall.exec ["aapt", "dump", "badging", pathStr apkPath]])) ∧
    (∀ env apkPath e, env.pathExists (pathStr apkPath) = true →
      (runCommand env ["aapt", "dump", "badging", pathStr apkPath]).1 = .error e →
      getApkInfo env apkPath =
        (.ok ("APK File Information:\nPath: " ++ pathStr apkPath ++
          "\nSize: " ++ toString (env.statSize (pathStr apkPath)) ++ " bytes" ++
          "\nModified: " ++ env.statMtime (pathStr apkPath) ++
          "\nNote: aapt not available for detailed analysis"),
         [SpawnCall.exec ["aapt", "dump", "badging", pathStr apkPath]])) := by
  refine ⟨?_, ?_, ?_⟩
  · intro env apkPath h
    unfold getApkInfo
    rw [h]
    rfl
  · intro env apkPath out h hr
    simp only [runCommand] at hr
    unfold getApkInfo
    rw [h]
    simp only [Bool.not_true, Bool.false_eq_true, if_false, runCommand, hr]
  · intro env apkPath e h hr
    simp only [runCommand] at hr
    unfold getApkInfo
    rw [h]
    simp only [Bool.not_true, Bool.false_eq_true, if_false, runCommand, hr]

/-- Witness for C9: all three branches instantiated on concrete
environments. -/
theorem apk_info_fallback_witness :
    (envBase.pathExists (pathStr "gone.apk") = false ∧
      getApkInfo envBase "gone.apk" = (.error ("APK file not found: " ++ "gone.apk"), [])) ∧
    (envAaptOk.pathExists (pathStr "app.apk") = true ∧
      (runCommand envAaptOk ["aapt", "dump", "badging", pathStr "app.apk"]).1 =
        .ok "package: name=com.example" ∧
      getApkInfo envAaptOk "app.apk" = (.ok ("APK Information:\n\n" ++ "package: name=com.example"),
        [SpawnCall.exec ["aapt", "dump", "badging", pathStr "app.apk"]])) ∧
    (envAaptFail.pathExists (pathStr "app.apk") = true ∧
      getApkInfo envAaptFail "app.apk" =
        (.ok ("APK File Information:\nPath: " ++ pathStr "app.apk" ++
          "\nSize: " ++ toString (envAaptFail.statSize (pathStr "app.apk")) ++ " bytes" ++
          "\nModified: " ++ envAaptFail.statMtime (pathStr "app.apk") ++
          "\nNote: aapt not available for detailed analysis"),
         [SpawnCall.exec ["aapt", "dump", "badging", pathStr "app.apk"]])) :=
  ⟨⟨by decide, apk_info_fallback.1 envBase "gone.apk" (by decide)⟩,
   ⟨by decide, by decide,
    apk_info_fallback.2.1 envAaptOk "app.apk" "package: name=com.example" (by decide) (by decide)⟩,
   ⟨by decide,
    apk_info_fallback.2.2 envAaptFail "app.apk"
      (execFailMsg (joinSep " " ["aapt", "dump", "badging", pathStr "app.apk"]) "aapt missing")
      (by decide) (by decide)⟩⟩

/-! ## C10: absence of smali directories is an ordinary result -/

/-- Existing project directory `proj` with subdirectories, none of which is a
smali directory. -/
def envNoSmali : Env :=
  { envBase with
    iterdir := fun d =>
      if d == "proj" then [("lib", true), ("readme.txt", false)] else [] }

/-- C10: when no subdirectory of the project starts with `smali`, the search
handler returns the plain text `No smali directories found` as an ordinary
(non-error) result, and the full dispatch surfaces it as a success outcome
with no process spawned. -/
theorem no_smali_dirs_ok :
    (∀ env apkDir pattern caseSensitive,
      (∀ e ∈ env.iterdir (pathStr apkDir), (e.2 && strStartsWith "smali" e.1) = false) →
      findSmaliReferences env apkDir pattern caseSensitive =
        (.ok "No smali directories found", [])) ∧
    (∀ cfg env d p,
      (∀ e ∈ env.iterdir (pathStr d), (e.2 && strStartsWith "smali" e.1) = false) →
      callTool cfg env "find_smali_references"
        [("apk_dir", Value.str d), ("pattern", Value.str p)] =
        (.success "No smali directories found", [])) := by
  have hdirs : ∀ (env : Env) (apkDir : String),
      (∀ e ∈ env.iterdir (pathStr apkDir), (e.2 && strStartsWith "smali" e.1) = false) →
      smaliDirsOf env apkDir = [] := by
    intro env apkDir h
    unfold smaliDirsOf
    rw [List.filter_eq_nil_iff]
    intro e he
    simp [h e he]
  have hfind : ∀ (env : Env) (apkDir pattern : String) (caseSensitive : Bool),
      (∀ e ∈ env.iterdir (pathStr apkDir), (e.2 && strStartsWith "smali" e.1) = false) →
      findSmaliReferences env apkDir pattern caseSensitive =
        (.ok "No smali directories found", []) := by
    intro env apkDir pattern caseSensitive h
    unfold findSmaliReferences
    rw [hdirs env apkDir h]
    rfl
  refine ⟨hfind, ?_⟩
  intro cfg env d p h
  have hi : invokeTool cfg env "find_smali_references"
      [("apk_dir", Value.str d), ("pattern", Value.str p)] =
      findSmaliReferences env d p true := rfl
  simp only [callTool, hi, hfind env d p true h]

/-- Witness for C10 on a concrete project with `lib` and `readme.txt`
entries only. -/
theorem no_smali_dirs_ok_witness :
    (∀ e ∈ envNoSmali.iterdir (pathStr "proj"),
      (e.2 && strStartsWith "smali" e.1) = false) ∧
    callTool cfgW envNoSmali "find_smali_references"
      [("apk_dir", Value.str "proj"), ("pattern", Value.str "x")] =
      (.success "No smali directories found", []) :=
  ⟨by decide, no_smali_dirs_ok.2 cfgW envNoSmali "proj" "x" (by decide)⟩

/-! ## C6: manifest line classification -/

/-- C6 counterexample: this line contains `uses-permission`, yet the
categorizer reports it as a Service entry (the `android:name=`/`service`
branch of the `elif` chain fires first), not as a Permission entry. -/
theorem manifest_service_permission_cex :
    strContains "<uses-permission android:name=\"android.permission.FOREGROUND_SERVICE\"/>"
      "uses-permission" = true ∧
    manifestFindings
      "<uses-permission android:name=\"android.permission.FOREGROUND_SERVICE\"/>" =
      ["Service: <uses-permission android:name=\"android.permission.FOREGROUND_SERVICE\"/>"] :=
  ⟨by decide, by decide⟩

/-- C6 (amended): classification follows the `elif` precedence — `package=`
first; then `android:name=` with (case-insensitive) `activity`, `service`,
`receiver` in that order; only a line matching none of those markers is
reported as a Permission entry when it contains `uses-permission`.  On the
claim's example manifest the categorized output is exactly one Permission
entry and one Activity entry carrying the line text. -/
theorem manifest_classification :
    (∀ l, strContains l "package=" = true →
      classifyLine l = some ("Package: " ++ l)) ∧
    (∀ l, strContains l "package=" = false →
      strContains l "android:name=" = true →
      strContains (lowerStr l) "activity" = true →
      classifyLine l = some ("Activity: " ++ l)) ∧
    (∀ l, strContains l "package=" = false →
      strContains l "android:name=" = true →
      strContains (lowerStr l) "activity" = false →
      strContains (lowerStr l) "service" = true →
      classifyLine l = some ("Service: " ++ l)) ∧
    (∀ l, strContains l "package=" = false →
      strContains l "android:name=" = true →
      strContains (lowerStr l) "activity" = false →
      strContains (lowerStr l) "service" = false →
      strContains (lowerStr l) "receiver" = true →
      classifyLine l = some ("Receiver: " ++ l)) ∧
    (∀ l, strContains l "package=" = false →
      (strContains l "android:name=" = false ∨
        (strContains (lowerStr l) "activity" = false ∧
         strContains (lowerStr l) "service" = false ∧
         strContains (lowerStr l) "receiver" = false)) →
      strContains l "uses-permission" = true →
      classifyLine l = some ("Permission: " ++ l)) ∧
    manifestFindings
      "<uses-permission android:name=\"X\"/>\n<activity android:name=\".Main\"/>" =
      ["Permission: <uses-permission android:name=\"X\"/>",
       "Activity: <activity android:name=\".Main\"/>"] := by
  refine ⟨?_, ?_, ?_, ?_, ?_, by decide⟩
  · intro l h
    simp [classifyLine, h]
  · intro l h1 h2 h3
    simp [classifyLine, h1, h2, h3]
  · intro l h1 h2 h3 h4
    simp [classifyLine, h1, h2, h3, h4]
  · intro l h1 h2 h3 h4 h5
    simp [classifyLine, h1, h2, h3, h4, h5]
  · intro l h1 hor hup
    rcases hor with hA | ⟨h3, h4, h5⟩
    · simp [classifyLine, h1, hA, hup]
    · simp [classifyLine, h1, h3, h4, h5, hup]

/-- Witness for C6's amended theorem: a package line and the example
permission line classified through the theorem. -/
theorem manifest_classification_witness :
    (strContains "package=com.example" "package=" = true ∧
      classifyLine "package=com.example" = some ("Package: " ++ "package=com.example")) ∧
    (strContains "<uses-permission android:name=\"X\"/>" "package=" = false ∧
      strContains "<uses-permission android:name=\"X\"/>" "uses-permission" = true ∧
      classifyLine "<uses-permission android:name=\"X\"/>" =
        some ("Permission: " ++ "<uses-permission android:name=\"X\"/>")) :=
  ⟨⟨by decide, manifest_classification.1 "package=com.example" (by decide)⟩,
   ⟨by decide, by decide,
    manifest_classification.2.2.2.2.1 "<uses-permission android:name=\"X\"/>"
      (by decide) (Or.inr ⟨by decide, by decide, by decide⟩) (by decide)⟩⟩

/-! ## C7: smali text search -/

/-- One smali file of sixty matching lines under a single smali directory. -/
def content60 : String :=
  joinSep "\n" (List.replicate 60 " x secret")

/-- Project with one `smali` directory holding one readable smali file. -/
def env60 : Env :=
  { envBase with
    iterdir := fun d => if d == "proj" then [("smali", true), ("res", true)] else []
    smaliFiles := fun d =>
      if d == "proj/smali" then [("smali/com/a/B.smali", Except.ok content60)] else [] }

/-- Every entry produced by `lineHits` has the reported
`relativePath:lineNumber: strippedLine` shape. -/
theorem lineHits_shape (cs : Bool) (sp rel content m : String)
    (hm : m ∈ lineHits cs sp rel content) :
    ∃ (i : Nat) (line : String),
      m = rel ++ ":" ++ toString i ++ ": " ++ trimStr line := by
  simp only [lineHits] at hm
  repeat' split at hm
  all_goals try cases hm
  all_goals
    rw [List.mem_filterMap] at hm
    obtain ⟨pr, hpr, heq⟩ := hm
    try dsimp only at heq
    repeat' split at heq
    all_goals first
      | exact ⟨pr.1, pr.2, (Option.some.inj heq).symm⟩
      | cases heq

/-- C7: when matches exist the result reports the total match count and lists
only the first 50 formatted entries; the listed entries number at most 50;
case-insensitive matching is invariant under recasing of the pattern; and
every reported entry has the shape `relativePath:lineNumber: strippedLine`. -/
theorem smali_search_contract :
    (∀ env apkDir pattern cs,
      (smaliDirsOf env apkDir).isEmpty = false →
      (smaliMatches env apkDir pattern cs).isEmpty = false →
      findSmaliReferences env apkDir pattern cs =
        (.ok ("Found " ++ toString (smaliMatches env apkDir pattern cs).length ++
          " matches for " ++ sq ++ pattern ++ sq ++ ":\n\n" ++
          joinSep "\n" ((smaliMatches env apkDir pattern cs).take 50)), [])) ∧
    (∀ env apkDir pattern cs,
      ((smaliMatches env apkDir pattern cs).take 50).length ≤ 50) ∧
    (∀ env apkDir p q, lowerStr p = lowerStr q →
      smaliMatches env apkDir p false = smaliMatches env apkDir q false) ∧
    (∀ env apkDir pattern cs m, m ∈ smaliMatches env apkDir pattern cs →
      ∃ (rel : String) (i : Nat) (line : String),
        m = rel ++ ":" ++ toString i ++ ": " ++ trimStr line) := by
  refine ⟨?_, ?_, ?_, ?_⟩
  · intro env apkDir pattern cs h1 h2
    unfold findSmaliReferences
    simp only [h1, h2, Bool.false_eq_true, if_false]
  · intro env apkDir pattern cs
    rw [List.length_take]
    exact min_le_left _ _
  · intro env apkDir p q h
    simp only [smaliMatches, Bool.false_eq_true, if_false, h]
  · intro env apkDir pattern cs m hm
    simp only [smaliMatches, List.mem_flatMap] at hm
    obtain ⟨dir, hdir, hm⟩ := hm
    obtain ⟨f, hf, hm⟩ := hm
    rcases f with ⟨rel, rd⟩
    rcases rd with e | c
    · dsimp only at hm
      cases hm
    · dsimp only at hm
      obtain ⟨i, line, hline⟩ := lineHits_shape cs
        (if cs = true then pattern else lowerStr pattern) rel c m hm
      exact ⟨rel, i, line, hline⟩


set_option maxRecDepth 4000 in
/-- Witness for C7 on the sixty-line project: sixty total matches, result as
given by the theorem. -/
theorem smali_search_contract_witness :
    (smaliDirsOf env60 "proj").isEmpty = false ∧
    (smaliMatches env60 "proj" "secret" true).isEmpty = false ∧
    findSmaliReferences env60 "proj" "secret" true =
      (.ok ("Found " ++ toString (smaliMatches env60 "proj" "secret" true).length ++
        " matches for " ++ sq ++ "secret" ++ sq ++ ":\n\n" ++
        joinSep "\n" ((smaliMatches env60 "proj" "secret" true).take 50)), []) ∧
    (smaliMatches env60 "proj" "secret" true).length = 60 :=
  ⟨by decide, by decide,
   smali_search_contract.1 env60 "proj" "secret" true (by decide) (by decide),
   by decide⟩

/-! ## C8: resource reading -/

/-- Environment holding the decoded project `demo` with a manifest under the
work directory `/ws`. -/
def envRes : Env :=
  { envBase with
    pathExists := fun p => p == "/ws/demo/AndroidManifest.xml"
    readText := fun p =>
      if p == "/ws/demo/AndroidManifest.xml" then Except.ok "<manifest/>"
      else Except.error "no such file" }

/-- C8 counterexample: the malformed URI `apktool://apk/demo` (no resource
kind segment) makes the reader fail with an `IndexError` from `parts[4]`, not
with the NotFound path, and the surfaced text is the index error's. -/
theorem resource_index_error_cex :
    readResourceInner cfgW envBase "apktool://apk/demo" = .error PyErr.indexError ∧
    readResource cfgW envBase "apktool://apk/demo" =
      "Error reading resource apktool://apk/demo: list index out of range" :=
  ⟨by decide, by decide⟩

/-- C8 (amended): reading returns the mapped file's raw content when it
exists; URIs without the `apktool://apk/` scheme, URIs with an unknown kind,
and URIs whose mapped file is missing all fail with the NotFound error naming
the URI; but a URI with the scheme and fewer than five `/`-separated segments
fails with an `IndexError` instead; every raised error is surfaced as the
`Error reading resource` text. -/
theorem read_resource_contract :
    (∀ cfg env uri, strStartsWith "apktool://apk/" uri = false →
      readResourceInner cfg env uri =
        .error (.fileNotFound ("Resource not found: " ++ uri))) ∧
    (∀ cfg env uri n, strStartsWith "apktool://apk/" uri = true →
      (strSplitOnChar (Char.ofNat 47) uri).get? 3 = some n →
      (strSplitOnChar (Char.ofNat 47) uri).get? 4 = none →
      readResourceInner cfg env uri = .error .indexError) ∧
    (∀ cfg env uri n content, strStartsWith "apktool://apk/" uri = true →
      (strSplitOnChar (Char.ofNat 47) uri).get? 3 = some n →
      (strSplitOnChar (Char.ofNat 47) uri).get? 4 = some "manifest" →
      env.pathExists (cfg.workDir ++ "/" ++ n ++ "/AndroidManifest.xml") = true →
      env.readText (cfg.workDir ++ "/" ++ n ++ "/AndroidManifest.xml") = .ok content →
      readResourceInner cfg env uri = .ok content) ∧
    (∀ cfg env uri n, strStartsWith "apktool://apk/" uri = true →
      (strSplitOnChar (Char.ofNat 47) uri).get? 3 = some n →
      (strSplitOnChar (Char.ofNat 47) uri).get? 4 = some "manifest" →
      env.pathExists (cfg.workDir ++ "/" ++ n ++ "/AndroidManifest.xml") = false →
      readResourceInner cfg env uri =
        .error (.fileNotFound ("Resource not found: " ++ uri))) ∧
    (∀ cfg env uri n content, strStartsWith "apktool://apk/" uri = true →
      (strSplitOnChar (Char.ofNat 47) uri).get? 3 = some n →
      (strSplitOnChar (Char.ofNat 47) uri).get? 4 = some "apktool_yml" →
      env.pathExists (cfg.workDir ++ "/" ++ n ++ "/apktool.yml") = true →
      env.readText (cfg.workDir ++ "/" ++ n ++ "/apktool.yml") = .ok content →
      readResourceInner cfg env uri = .ok content) ∧
    (∀ cfg env uri n, strStartsWith "apktool://apk/" uri = true →
      (strSplitOnChar (Char.ofNat 47) uri).get? 3 = some n →
      (strSplitOnChar (Char.ofNat 47) uri).get? 4 = some "apktool_yml" →
      env.pathExists (cfg.workDir ++ "/" ++ n ++ "/apktool.yml") = false →
      readResourceInner cfg env uri =
        .error (.fileNotFound ("Resource not found: " ++ uri))) ∧
    (∀ cfg env uri n k, strStartsWith "apktool://apk/" uri = true →
      (strSplitOnChar (Char.ofNat 47) uri).get? 3 = some n →
      (strSplitOnChar (Char.ofNat 47) uri).get? 4 = some k →
      k ≠ "manifest" → k ≠ "apktool_yml" →
      readResourceInner cfg env uri =
        .error (.fileNotFound ("Resource not found: " ++ uri))) ∧
    (∀ cfg env uri e, readResourceInner cfg env uri = .error e →
      readResource cfg env uri =
        "Error reading resource " ++ uri ++ ": " ++ pyErrStr e) := by
  refine ⟨?_, ?_, ?_, ?_, ?_, ?_, ?_, ?_⟩
  · intro cfg env uri h
    simp only [readResourceInner, h, Bool.false_eq_true, if_false]
  · intro cfg env uri n h h3 h4
    simp only [readResourceInner, h, if_true, h3, h4]
  · intro cfg env uri n content h h3 h4 hex hrd
    simp only [readResourceInner, h, if_true, h3, h4, hex, hrd]
    rfl
  · intro cfg env uri n h h3 h4 hex
    simp only [readResourceInner, h, if_true, h3, h4, hex, Bool.false_eq_true, if_false]
    rfl
  · intro cfg env uri n content h h3 h4 hex hrd
    simp only [readResourceInner, h, if_true, h3, h4, hex, hrd]
    rfl
  · intro cfg env uri n h h3 h4 hex
    simp only [readResourceInner, h, if_true, h3, h4, hex, Bool.false_eq_true, if_false]
    rfl
  · intro cfg env uri n k h h3 h4 hk1 hk2
    simp only [readResourceInner, h, if_true, h3, h4,
      beq_eq_false_iff_ne.mpr hk1, beq_eq_false_iff_ne.mpr hk2,
      Bool.false_eq_true, if_false]
  · intro cfg env uri e h
    simp only [readResource, h]

/-- Witness for C8's amended theorem: the no-scheme case, the successful
manifest read, the missing `apktool.yml`, and the unknown-kind case on
concrete inputs. -/
theorem read_resource_contract_witness :
    (strStartsWith "apktool://apk/" "file:///etc/passwd" = false ∧
      readResourceInner cfgW envBase "file:///etc/passwd" =
        .error (.fileNotFound ("Resource not found: " ++ "file:///etc/passwd"))) ∧
    (readResourceInner cfgW envRes "apktool://apk/demo/manifest" = .ok "<manifest/>") ∧
    (envRes.pathExists (cfgW.workDir ++ "/" ++ "demo" ++ "/apktool.yml") = false ∧
      readResourceInner cfgW envRes "apktool://apk/demo/apktool_yml" =
        .error (.fileNotFound ("Resource not found: " ++ "apktool://apk/demo/apktool_yml"))) ∧
    (readResourceInner cfgW envRes "apktool://apk/demo/icons" =
      .error (.fileNotFound ("Resource not found: " ++ "apktool://apk/demo/icons"))) :=
  ⟨⟨by decide, read_resource_contract.1 cfgW envBase "file:///etc/passwd" (by decide)⟩,
   read_resource_contract.2.2.1 cfgW envRes "apktool://apk/demo/manifest" "demo"
     "<manifest/>" (by decide) (by decide) (by decide) (by decide) (by decide),
   ⟨by decide,
    read_resource_contract.2.2.2.2.2.1 cfgW envRes "apktool://apk/demo/apktool_yml"
      "demo" (by decide) (by decide) (by decide) (by decide)⟩,
   read_resource_contract.2.2.2.2.2.2.1 cfgW envRes "apktool://apk/demo/icons" "demo"
     "icons" (by decide) (by decide) (by decide) (by decide) (by decide)⟩

/-! ## C2: dispatch boundary -/

/-- C2: a tool name outside the registry yields the structured
`Unknown tool` failure outcome with no handler invoked (no spawn); and any
error raised inside a handler is caught at the boundary and converted into
the `Error executing {name}: {message}` failure outcome. -/
theorem dispatch_unknown_and_catch :
    (∀ cfg env name args, name ∉ registeredTools →
      callTool cfg env name args =
        (.failure ("Error executing " ++ name ++ ": " ++ ("Unknown tool: " ++ name)), [])) ∧
    (∀ cfg env name args e, name ∈ registeredTools →
      (invokeTool cfg env name args).1 = .error e →
      (callTool cfg env name args).1 =
        .failure ("Error executing " ++ name ++ ": " ++ e)) := by
  constructor
  · intro cfg env name args h
    have h1 : (name == "decode_apk") = false :=
      beq_eq_false_iff_ne.mpr (fun e => h (by rw [e]; decide))
    have h2 : (name == "build_apk") = false :=
      beq_eq_false_iff_ne.mpr (fun e => h (by rw [e]; decide))
    have h3 : (name == "install_framework") = false :=
      beq_eq_false_iff_ne.mpr (fun e => h (by rw [e]; decide))
    have h4 : (name == "analyze_manifest") = false :=
      beq_eq_false_iff_ne.mpr (fun e => h (by rw [e]; decide))
    have h5 : (name == "extract_strings") = false :=
      beq_eq_false_iff_ne.mpr (fun e => h (by rw [e]; decide))
    have h6 : (name == "list_permissions") = false :=
      beq_eq_false_iff_ne.mpr (fun e => h (by rw [e]; decide))
    have h7 : (name == "find_smali_references") = false :=
      beq_eq_false_iff_ne.mpr (fun e => h (by rw [e]; decide))
    have h8 : (name == "get_apk_info") = false :=
      beq_eq_false_iff_ne.mpr (fun e => h (by rw [e]; decide))
    simp only [callTool, invokeTool, h1, h2, h3, h4, h5, h6, h7, h8,
      Bool.false_eq_true, if_false]
  · intro cfg env name args e hmem hinv
    simp only [callTool, hinv]

/-- Witness for C2: the unknown tool `no_such_tool` and a handler error
(missing APK file) on `decode_apk`, both converted to structured outcomes. -/
theorem dispatch_unknown_and_catch_witness :
    ("no_such_tool" ∉ registeredTools ∧
      callTool cfgW envBase "no_such_tool" [] =
        (.failure ("Error executing " ++ "no_such_tool" ++ ": " ++
          ("Unknown tool: " ++ "no_such_tool")), [])) ∧
    ("decode_apk" ∈ registeredTools ∧
      (invokeTool cfgW envBase "decode_apk" [("apk_path", Value.str "gone.apk")]).1 =
        .error ("APK file not found: gone.apk") ∧
      (callTool cfgW envBase "decode_apk" [("apk_path", Value.str "gone.apk")]).1 =
        .failure ("Error executing " ++ "decode_apk" ++ ": " ++ "APK file not found: gone.apk")) :=
  ⟨⟨by decide, dispatch_unknown_and_catch.1 cfgW envBase "no_such_tool" [] (by decide)⟩,
   ⟨by decide, by decide,
    dispatch_unknown_and_catch.2 cfgW envBase "decode_apk"
      [("apk_path", Value.str "gone.apk")] "APK file not found: gone.apk"
      (by decide) (by decide)⟩⟩

/-! ## C3: required-argument checking -/

/-- When every supplied key is a declared parameter and some required
argument is absent, CPython binding fails with the missing-arguments
`TypeError`, naming exactly the absent required parameters. -/
theorem bindCheck_missing (fname : String) (params required : List String) (args : Args)
    (hparams : ∀ k ∈ argKeys args, params.contains k = true)
    (hne : required.filter (fun k => !(hasKey args k)) ≠ []) :
    bindCheck fname params required args =
      some (pyMissingMsg fname (required.filter (fun k => !(hasKey args k)))) := by
  unfold bindCheck
  have hextra : (argKeys args).filter (fun k => !(params.contains k)) = [] :=
    List.filter_eq_nil_iff.mpr
      (fun k hk => by simp only [hparams k hk, Bool.not_true]; exact Bool.false_ne_true)
  rw [hextra]
  cases hmf : required.filter (fun k => !(hasKey args k)) with
  | nil => exact absurd hmf hne
  | cons a l => rfl

/-- C3 counterexample: the request `decode_apk {bogus: x}` omits the required
`apk_path`, yet dispatch fails with the unexpected-keyword error (raised
first during CPython keyword binding), whose message does not name
`apk_path` at all. -/
theorem missing_arg_unexpected_kw_cex :
    hasKey [("bogus", Value.str "x")] "apk_path" = false ∧
    callTool cfgW envBase "decode_apk" [("bogus", Value.str "x")] =
      (.failure ("Error executing decode_apk: " ++
        pyUnexpectedMsg "ApktoolMCPServer._decode_apk" "bogus"), []) ∧
    strContains ("Error executing decode_apk: " ++
      pyUnexpectedMsg "ApktoolMCPServer._decode_apk" "bogus") "apk_path" = false :=
  ⟨by decide, by decide, by decide⟩

/-- C3 (amended): for every registered tool, a request whose keys are all
declared parameters of the tool and which omits a required argument fails at
the binding step — before the handler body runs and with no process spawned —
with the missing-argument error that names the missing field. -/
theorem missing_arg_named_before_run :
    ∀ sig ∈ toolSigs, ∀ (cfg : Cfg) (env : Env) (args : Args) (r : String),
      (∀ k ∈ argKeys args, sig.params.contains k = true) →
      r ∈ sig.required →
      hasKey args r = false →
      invokeTool cfg env sig.toolName args =
        (.error (pyMissingMsg sig.pyName
          (sig.required.filter (fun k => !(hasKey args k)))), []) ∧
      r ∈ sig.required.filter (fun k => !(hasKey args k)) ∧
      strContains (pyMissingMsg sig.pyName
        (sig.required.filter (fun k => !(hasKey args k)))) r = true := by
  intro sig hsig cfg env args r hparams hr hk
  simp only [toolSigs, List.mem_cons, List.not_mem_nil, or_false] at hsig
  rcases hsig with h|h|h|h|h|h|h|h <;> subst h <;> dsimp only at hparams hr hk ⊢
  · -- decode_apk
    simp only [List.mem_singleton] at hr
    subst hr
    have hne : ((["apk_path"] : List String).filter (fun k => !(hasKey args k))) ≠ [] := by
      simp [List.filter, hk]
    refine ⟨?_, by simp [List.filter, hk], ?_⟩
    · simp [invokeTool,
        bindCheck_missing "ApktoolMCPServer._decode_apk"
          ["apk_path", "output_dir", "force", "no_res", "no_src"] ["apk_path"] args hparams hne]
    · rw [show ((["apk_path"] : List String).filter (fun k => !(hasKey args k))) = ["apk_path"]
        from by simp [List.filter, hk]]
      decide
  · -- build_apk
    simp only [List.mem_singleton] at hr
    subst hr
    have hne : ((["source_dir"] : List String).filter (fun k => !(hasKey args k))) ≠ [] := by
      simp [List.filter, hk]
    refine ⟨?_, by simp [List.filter, hk], ?_⟩
    · simp [invokeTool,
        bindCheck_missing "ApktoolMCPServer._build_apk"
          ["source_dir", "output_apk", "force"] ["source_dir"] args hparams hne]
    · rw [show ((["source_dir"] : List String).filter (fun k => !(hasKey args k))) = ["source_dir"]
        from by simp [List.filter, hk]]
      decide
  · -- install_framework
    simp only [List.mem_singleton] at hr
    subst hr
    have hne : ((["framework_path"] : List String).filter (fun k => !(hasKey args k))) ≠ [] := by
      simp [List.filter, hk]
    refine ⟨?_, by simp [List.filter, hk], ?_⟩
    · simp [invokeTool,
        bindCheck_missing "ApktoolMCPServer._install_framework"
          ["framework_path", "tag"] ["framework_path"] args hparams hne]
    · rw [show ((["framework_path"] : List String).filter (fun k => !(hasKey args k))) =
          ["framework_path"] from by simp [List.filter, hk]]
      decide
  · -- analyze_manifest
    simp only [List.mem_singleton] at hr
    subst hr
    have hne : ((["apk_dir"] : List String).filter (fun k => !(hasKey args k))) ≠ [] := by
      simp [List.filter, hk]
    refine ⟨?_, by simp [List.filter, hk], ?_⟩
    · simp [invokeTool,
        bindCheck_missing "ApktoolMCPServer._analyze_manifest" ["apk_dir"] ["apk_dir"]
          args hparams hne]
    · rw [show ((["apk_dir"] : List String).filter (fun k => !(hasKey args k))) = ["apk_dir"]
        from by simp [List.filter, hk]]
      decide
  · -- extract_strings
    simp only [List.mem_singleton] at hr
    subst hr
    have hne : ((["apk_dir"] : List String).filter (fun k => !(hasKey args k))) ≠ [] := by
      simp [List.filter, hk]
    refine ⟨?_, by simp [List.filter, hk], ?_⟩
    · simp [invokeTool,
        bindCheck_missing "ApktoolMCPServer._extract_strings" ["apk_dir", "locale"]
          ["apk_dir"] args hparams hne]
    · rw [show ((["apk_dir"] : List String).filter (fun k => !(hasKey args k))) = ["apk_dir"]
        from by simp [List.filter, hk]]
      decide
  · -- list_permissions
    simp only [List.mem_singleton] at hr
    subst hr
    have hne : ((["apk_dir"] : List String).filter (fun k => !(hasKey args k))) ≠ [] := by
      simp [List.filter, hk]
    refine ⟨?_, by simp [List.filter, hk], ?_⟩
    · simp [invokeTool,
        bindCheck_missing "ApktoolMCPServer._list_permissions" ["apk_dir"] ["apk_dir"]
          args hparams hne]
    · rw [show ((["apk_dir"] : List String).filter (fun k => !(hasKey args k))) = ["apk_dir"]
        from by simp [List.filter, hk]]
      decide
  · -- find_smali_references
    simp only [List.mem_cons, List.mem_singleton, List.not_mem_nil, or_false] at hr
    have hne : ((["apk_dir", "pattern"] : List String).filter (fun k => !(hasKey args k))) ≠ [] := by
      rcases hr with h | h <;> subst h <;>
        by_cases h2 : hasKey args "apk_dir" = true <;>
        by_cases h3 : hasKey args "pattern" = true <;>
        simp_all [List.filter]
    refine ⟨?_, ?_, ?_⟩
    · simp [invokeTool,
        bindCheck_missing "ApktoolMCPServer._find_smali_references"
          ["apk_dir", "pattern", "case_sensitive"] ["apk_dir", "pattern"] args hparams hne]
    · rcases hr with h | h <;> subst h <;>
        by_cases h2 : hasKey args "apk_dir" = true <;>
        by_cases h3 : hasKey args "pattern" = true <;>
        simp_all [List.filter]
    · rcases hr with h | h <;> subst h <;>
        by_cases h2 : hasKey args "apk_dir" = true <;>
        by_cases h3 : hasKey args "pattern" = true <;>
        simp_all [List.filter] <;> decide
  · -- get_apk_info
    simp only [List.mem_singleton] at hr
    subst hr
    have hne : ((["apk_path"] : List String).filter (fun k => !(hasKey args k))) ≠ [] := by
      simp [List.filter, hk]
    refine ⟨?_, by simp [List.filter, hk], ?_⟩
    · simp [invokeTool,
        bindCheck_missing "ApktoolMCPServer._get_apk_info" ["apk_path"] ["apk_path"]
          args hparams hne]
    · rw [show ((["apk_path"] : List String).filter (fun k => !(hasKey args k))) = ["apk_path"]
        from by simp [List.filter, hk]]
      decide

/-- Witness for C3's amended theorem: `decode_apk` called with only
`force=true` fails naming `apk_path`, with no spawn. -/
theorem missing_arg_named_before_run_witness :
    (⟨"decode_apk", "ApktoolMCPServer._decode_apk",
      ["apk_path", "output_dir", "force", "no_res", "no_src"], ["apk_path"]⟩ : ToolSig) ∈ toolSigs ∧
    (∀ k ∈ argKeys [("force", Value.bool true)],
      (["apk_path", "output_dir", "force", "no_res", "no_src"] : List String).contains k = true) ∧
    "apk_path" ∈ (["apk_path"] : List String) ∧
    hasKey [("force", Value.bool true)] "apk_path" = false ∧
    (invokeTool cfgW envBase "decode_apk" [("force", Value.bool true)] =
      (.error (pyMissingMsg "ApktoolMCPServer._decode_apk"
        ((["apk_path"] : List String).filter
          (fun k => !(hasKey [("force", Value.bool true)] k)))), []) ∧
     "apk_path" ∈ (["apk_path"] : List String).filter
        (fun k => !(hasKey [("force", Value.bool true)] k)) ∧
     strContains (pyMissingMsg "ApktoolMCPServer._decode_apk"
        ((["apk_path"] : List String).filter
          (fun k => !(hasKey [("force", Value.bool true)] k)))) "apk_path" = true) :=
  ⟨by decide, by decide, by decide, by decide,
   missing_arg_named_before_run
     ⟨"decode_apk", "ApktoolMCPServer._decode_apk",
      ["apk_path", "output_dir", "force", "no_res", "no_src"], ["apk_path"]⟩
     (by decide) cfgW envBase [("force", Value.bool true)] "apk_path"
     (by decide) (by decide) (by decide)⟩

/-! ## C1: discrete argument vectors, never a shell string -/

theorem execOnly_decode (cfg : Cfg) (env : Env) (p : String) (od : Option String)
    (f r s : Bool) :
    ∀ c ∈ (decodeApk cfg env p od f r s).2, ∃ argv, c = SpawnCall.exec argv := by
  intro c hc
  simp only [decodeApk, runCommand] at hc
  repeat' split at hc
  all_goals first
    | (rw [List.mem_singleton] at hc; exact ⟨_, hc⟩)
    | cases hc

theorem execOnly_build (cfg : Cfg) (env : Env) (p : String) (oa : Option String)
    (f : Bool) :
    ∀ c ∈ (buildApk cfg env p oa f).2, ∃ argv, c = SpawnCall.exec argv := by
  intro c hc
  simp only [buildApk, runCommand] at hc
  repeat' split at hc
  all_goals first
    | (rw [List.mem_singleton] at hc; exact ⟨_, hc⟩)
    | cases hc

theorem execOnly_install (cfg : Cfg) (env : Env) (p : String) (tag : Option String) :
    ∀ c ∈ (installFramework cfg env p tag).2, ∃ argv, c = SpawnCall.exec argv := by
  intro c hc
  simp only [installFramework, runCommand] at hc
  repeat' split at hc
  all_goals first
    | (rw [List.mem_singleton] at hc; exact ⟨_, hc⟩)
    | cases hc

theorem execOnly_analyze (env : Env) (d : String) :
    ∀ c ∈ (analyzeManifest env d).2, ∃ argv, c = SpawnCall.exec argv := by
  intro c hc
  simp only [analyzeManifest] at hc
  repeat' split at hc
  all_goals cases hc

theorem execOnly_extract (env : Env) (d loc : String) :
    ∀ c ∈ (extractStrings env d loc).2, ∃ argv, c = SpawnCall.exec argv := by
  intro c hc
  simp only [extractStrings] at hc
  repeat' split at hc
  all_goals cases hc

theorem execOnly_perms (env : Env) (d : String) :
    ∀ c ∈ (listPermissions env d).2, ∃ argv, c = SpawnCall.exec argv := by
  intro c hc
  simp only [listPermissions] at hc
  repeat' split at hc
  all_goals cases hc

theorem execOnly_find (env : Env) (d pat : String) (cs : Bool) :
    ∀ c ∈ (findSmaliReferences env d pat cs).2, ∃ argv, c = SpawnCall.exec argv := by
  intro c hc
  simp only [findSmaliReferences] at hc
  repeat' split at hc
  all_goals cases hc

theorem execOnly_info (env : Env) (p : String) :
    ∀ c ∈ (getApkInfo env p).2, ∃ argv, c = SpawnCall.exec argv := by
  intro c hc
  simp only [getApkInfo, runCommand] at hc
  repeat' split at hc
  all_goals first
    | (rw [List.mem_singleton] at hc; exact ⟨_, hc⟩)
    | cases hc

theorem execOnly_invoke (cfg : Cfg) (env : Env) (name : String) (args : Args) :
    ∀ c ∈ (invokeTool cfg env name args).2, ∃ argv, c = SpawnCall.exec argv := by
  intro c hc
  by_cases n1 : name = "decode_apk"
  · subst n1
    have hred : invokeTool cfg env "decode_apk" args =
        (match bindCheck "ApktoolMCPServer._decode_apk"
            ["apk_path", "output_dir", "force", "no_res", "no_src"] ["apk_path"] args with
         | some e => ((Except.error e : Except String String), ([] : List SpawnCall))
         | none => decodeApk cfg env (strArg args "apk_path" "") (optStrArg args "output_dir")
             (boolArg args "force" false) (boolArg args "no_res" false)
             (boolArg args "no_src" false)) := rfl
    rw [hred] at hc
    cases hb : bindCheck "ApktoolMCPServer._decode_apk"
        ["apk_path", "output_dir", "force", "no_res", "no_src"] ["apk_path"] args with
    | some e => rw [hb] at hc; cases hc
    | none => rw [hb] at hc; exact execOnly_decode _ _ _ _ _ _ _ c hc
  by_cases n2 : name = "build_apk"
  · subst n2
    have hred : invokeTool cfg env "build_apk" args =
        (match bindCheck "ApktoolMCPServer._build_apk"
            ["source_dir", "output_apk", "force"] ["source_dir"] args with
         | some e => ((Except.error e : Except String String), ([] : List SpawnCall))
         | none => buildApk cfg env (strArg args "source_dir" "")
             (optStrArg args "output_apk") (boolArg args "force" false)) := rfl
    rw [hred] at hc
    cases hb : bindCheck "ApktoolMCPServer._build_apk"
        ["source_dir", "output_apk", "force"] ["source_dir"] args with
    | some e => rw [hb] at hc; cases hc
    | none => rw [hb] at hc; exact execOnly_build _ _ _ _ _ c hc
  by_cases n3 : name = "install_framework"
  · subst n3
    have hred : invokeTool cfg env "install_framework" args =
        (match bindCheck "ApktoolMCPServer._install_framework"
            ["framework_path", "tag"] ["framework_path"] args with
         | some e => ((Except.error e : Except String String), ([] : List SpawnCall))
         | none => installFramework cfg env (strArg args "framework_path" "")
             (optStrArg args "tag")) := rfl
    rw [hred] at hc
    cases hb : bindCheck "ApktoolMCPServer._install_framework"
        ["framework_path", "tag"] ["framework_path"] args with
    | some e => rw [hb] at hc; cases hc
    | none => rw [hb] at hc; exact execOnly_install _ _ _ _ c hc
  by_cases n4 : name = "analyze_manifest"
  · subst n4
    have hred : invokeTool cfg env "analyze_manifest" args =
        (match bindCheck "ApktoolMCPServer._analyze_manifest" ["apk_dir"] ["apk_dir"] args with
         | some e => ((Except.error e : Except String String), ([] : List SpawnCall))
         | none => analyzeManifest env (strArg args "apk_dir" "")) := rfl
    rw [hred] at hc
    cases hb : bindCheck "ApktoolMCPServer._analyze_manifest" ["apk_dir"] ["apk_dir"] args with
    | some e => rw [hb] at hc; cases hc
    | none => rw [hb] at hc; exact execOnly_analyze _ _ c hc
  by_cases n5 : name = "extract_strings"
  · subst n5
    have hred : invokeTool cfg env "extract_strings" args =
        (match bindCheck "ApktoolMCPServer._extract_strings" ["apk_dir", "locale"] ["apk_dir"] args with
         | some e => ((Except.error e : Except String String), ([] : List SpawnCall))
         | none => extractStrings env (strArg args "apk_dir" "") (strArg args "locale" "")) := rfl
    rw [hred] at hc
    cases hb : bindCheck "ApktoolMCPServer._extract_strings" ["apk_dir", "locale"] ["apk_dir"] args with
    | some e => rw [hb] at hc; cases hc
    | none => rw [hb] at hc; exact execOnly_extract _ _ _ c hc
  by_cases n6 : name = "list_permissions"
  · subst n6
    have hred : invokeTool cfg env "list_permissions" args =
        (match bindCheck "ApktoolMCPServer._list_permissions" ["apk_dir"] ["apk_dir"] args with
         | some e => ((Except.error e : Except String String), ([] : List SpawnCall))
         | none => listPermissions env (strArg args "apk_dir" "")) := rfl
    rw [hred] at hc
    cases hb : bindCheck "ApktoolMCPServer._list_permissions" ["apk_dir"] ["apk_dir"] args with
    | some e => rw [hb] at hc; cases hc
    | none => rw [hb] at hc; exact execOnly_perms _ _ c hc
  by_cases n7 : name = "find_smali_references"
  · subst n7
    have hred : invokeTool cfg env "find_smali_references" args =
        (match bindCheck "ApktoolMCPServer._find_smali_references"
            ["apk_dir", "pattern", "case_sensitive"] ["apk_dir", "pattern"] args with
         | some e => ((Except.error e : Except String String), ([] : List SpawnCall))
         | none => findSmaliReferences env (strArg args "apk_dir" "")
             (strArg args "pattern" "") (boolArg args "case_sensitive" true)) := rfl
    rw [hred] at hc
    cases hb : bindCheck "ApktoolMCPServer._find_smali_references"
        ["apk_dir", "pattern", "case_sensitive"] ["apk_dir", "pattern"] args with
    | some e => rw [hb] at hc; cases hc
    | none => rw [hb] at hc; exact execOnly_find _ _ _ _ c hc
  by_cases n8 : name = "get_apk_info"
  · subst n8
    have hred : invokeTool cfg env "get_apk_info" args =
        (match bindCheck "ApktoolMCPServer._get_apk_info" ["apk_path"] ["apk_path"] args with
         | some e => ((Except.error e : Except String String), ([] : List SpawnCall))
         | none => getApkInfo env (strArg args "apk_path" "")) := rfl
    rw [hred] at hc
    cases hb : bindCheck "ApktoolMCPServer._get_apk_info" ["apk_path"] ["apk_path"] args with
    | some e => rw [hb] at hc; cases hc
    | none => rw [hb] at hc; exact execOnly_info _ _ c hc
  · have hred : invokeTool cfg env name args = (.error ("Unknown tool: " ++ name), []) := by
      simp only [invokeTool, beq_eq_false_iff_ne.mpr n1, beq_eq_false_iff_ne.mpr n2,
        beq_eq_false_iff_ne.mpr n3, beq_eq_false_iff_ne.mpr n4, beq_eq_false_iff_ne.mpr n5,
        beq_eq_false_iff_ne.mpr n6, beq_eq_false_iff_ne.mpr n7, beq_eq_false_iff_ne.mpr n8,
        Bool.false_eq_true, if_false]
    rw [hred] at hc
    cases hc

/-- The dispatch boundary never adds or removes spawns. -/
theorem callTool_trace (cfg : Cfg) (env : Env) (name : String) (args : Args) :
    (callTool cfg env name args).2 = (invokeTool cfg env name args).2 := by
  have h : ∀ (x : Except String String × List SpawnCall),
      (match x.1 with
       | Except.ok t => (ToolOutcome.success t, x.2)
       | Except.error e =>
         (ToolOutcome.failure ("Error executing " ++ name ++ ": " ++ e), x.2)).2 = x.2 := by
    intro x
    cases hx : x.1 <;> rfl
  exact h (invokeTool cfg env name args)

/-- A path string containing no separator passes through `pathStr`
unchanged (shell metacharacters such as spaces and `;` included). -/
theorem pathStr_no_sep (p : String) (hne : p.data ≠ []) (hmem : Char.ofNat 47 ∉ p.data)
    (hdot : p ≠ ".") : pathStr p = p := by
  have hpne : p ≠ "" := fun e => hne (by rw [e])
  have h1 : (p == "") = false := beq_eq_false_iff_ne.mpr hpne
  have h2 : (p == ".") = false := beq_eq_false_iff_ne.mpr hdot
  have h3 : strStartsWith "/" p = false := by
    unfold strStartsWith
    cases hd : p.data with
    | nil => exact absurd hd hne
    | cons x t =>
      have hs : "/".data = [Char.ofNat 47] := by decide
      have hxc : (Char.ofNat 47 == x) = false :=
        beq_eq_false_iff_ne.mpr
          (fun e => hmem (by rw [hd, e]; exact List.mem_cons_self x t))
      rw [hs]
      simp [List.isPrefixOf, hxc]
  simp [pathStr, strSplitOnChar, splitOnChar_not_mem _ _ hmem, mk_data, h1, h2, h3, joinSep]

/-- C1: every spawn logged across every tool call is an argument-vector
`exec`, never a shell command string; for an existing APK the decode handler
spawns exactly the constructed vector, carrying the path string as one
discrete element; and a path with no separator reaches that vector verbatim,
shell metacharacters included. -/
theorem argv_discrete_no_shell :
    (∀ cfg env name args c, c ∈ (callTool cfg env name args).2 →
      ∃ argv, c = SpawnCall.exec argv) ∧
    (∀ cfg env apkPath, env.pathExists (pathStr apkPath) = true →
      (decodeApk cfg env apkPath none false false false).2 =
        [SpawnCall.exec [cfg.apktoolPath, "d", pathStr apkPath, "-o",
          cfg.workDir ++ "/" ++ pathStem apkPath]]) ∧
    (∀ p : String, p.data ≠ [] → Char.ofNat 47 ∉ p.data → p ≠ "." →
      pathStr p = p) := by
  refine ⟨?_, ?_, ?_⟩
  · intro cfg env name args c hc
    rw [callTool_trace] at hc
    exact execOnly_invoke cfg env name args c hc
  · intro cfg env apkPath h
    simp only [decodeApk, h, Bool.not_true, Bool.false_eq_true, if_false, runCommand]
    split <;> simp
  · exact pathStr_no_sep

/-- Environment in which the metacharacter-laden APK `my app;x.apk` exists
and decoding succeeds. -/
def envSemi : Env :=
  { envBase with
    pathExists := fun p => p == "my app;x.apk"
    spawn := fun _ => SpawnResult.completed 0 "ok" "" }

/-- Witness for C1: the file name `my app;x.apk` (a space and a `;`) reaches
the spawned argument vector as one verbatim element, and that spawn is an
`exec` call. -/
theorem argv_discrete_no_shell_witness :
    envSemi.pathExists (pathStr "my app;x.apk") = true ∧
    (decodeApk cfgW envSemi "my app;x.apk" none false false false).2 =
      [SpawnCall.exec [cfgW.apktoolPath, "d", pathStr "my app;x.apk", "-o",
        cfgW.workDir ++ "/" ++ pathStem "my app;x.apk"]] ∧
    pathStr "my app;x.apk" = "my app;x.apk" ∧
    SpawnCall.exec ["apktool", "d", "my app;x.apk", "-o", "/ws/my app;x"] ∈
      (callTool cfgW envSemi "decode_apk" [("apk_path", Value.str "my app;x.apk")]).2 ∧
    (∃ argv, SpawnCall.exec ["apktool", "d", "my app;x.apk", "-o", "/ws/my app;x"] =
      SpawnCall.exec argv) :=
  ⟨by decide,
   argv_discrete_no_shell.2.1 cfgW envSemi "my app;x.apk" (by decide),
   argv_discrete_no_shell.2.2 "my app;x.apk" (by decide) (by decide) (by decide),
   by decide,
   argv_discrete_no_shell.1 cfgW envSemi "decode_apk"
     [("apk_path", Value.str "my app;x.apk")]
     (SpawnCall.exec ["apktool", "d", "my app;x.apk", "-o", "/ws/my app;x"]) (by decide)⟩

end Apktool
